import Mathlib

/-!
Shallow embedding of `photutils/background/background_2d.py` (class
`Background2D`) and proofs about its pipeline stages.

Modelling conventions:
* 2D float images are functions `ℕ → ℕ → Option ℚ` together with explicit
  shape pairs; `none` is the missing/NaN sentinel that the code uses for
  masked pixels.  Exact rational arithmetic stands in for floating point
  where the code's computations are exact term-by-term (medians, thresholds,
  comparisons).
* Flattened per-box sample rows (`self._box_data`) are `List (List (Option ℚ))`.
* Python exceptions become an `Except BkgError` result; the error constructor
  `allBoxesExcluded` carries the two values that the code interpolates into
  its message (`self._box_npixels_threshold` and `self.exclude_percentile`).
* External collaborators (astropy `SigmaClip`, `bottleneck.nanstd`,
  `scipy.ndimage.generic_filter`, the zoom interpolator and the Shepard IDW
  interpolator) are higher-order parameters, as the design treats them as
  injectable or out of scope.
-/

/-- Error kinds raised by the `Background2D` pipeline:
`invalidConfiguration` models the `ValueError`s for malformed sizes or an
unrecognized `edge_method`; `allBoxesExcluded t p` models the `ValueError`
raised by `_get_box_indices`, whose message is formatted with the effective
pixel-count threshold `t` and the configured percentage `p`
(background_2d.py:344-351). -/
inductive BkgError where
  | invalidConfiguration : BkgError
  | allBoxesExcluded : ℚ → ℚ → BkgError
  deriving DecidableEq, Repr

/-- Embedding of `Background2D._process_size_input` (background_2d.py:214-222).
The input is modelled as the 1D integer array obtained from
`np.atleast_1d(array).astype(int)`.  Mirrors the source exactly: the
`len(array) != 2` check sits *inside* the `len(array) == 1` branch, after
`np.repeat(array, 2)` (which turns `[a]` into `[a, a]`). -/
def process_size_input (array : List Int) : Except BkgError (List Int) :=
  if array.length = 1 then
    let arr2 := array ++ array
    if arr2.length ≠ 2 then Except.error BkgError.invalidConfiguration
    else Except.ok arr2
  else Except.ok array

/-- Embedding of `Background2D._reshape_data`'s pad/crop stage
(background_2d.py:277-303) on an `h × w` image with box size `bh × bw`.
Returns `(nboxes, working_shape, working_data)`:
* `nboxes = data.shape // box_size` (recomputed from the padded shape in the
  pad branch),
* `working_shape` is the shape of the padded/cropped array,
* `working_data` is the padded/cropped image; `np.pad(..., constant_values=np.nan)`
  writes the missing sentinel outside the original extent, and the crop slice
  restricts to `crop_shape` (the function is read under that shape). -/
def reshape_data (h w bh bw : ℕ) (data : ℕ → ℕ → Option ℚ) (edge_method : String) :
    Except BkgError ((ℕ × ℕ) × (ℕ × ℕ) × (ℕ → ℕ → Option ℚ)) :=
  let nboxes : ℕ × ℕ := (h / bh, w / bw)
  let extra_size : ℕ × ℕ := (h % bh, w % bw)
  if extra_size.1 + extra_size.2 ≠ 0 then
    if edge_method = "pad" then
      let pad_shape : ℕ × ℕ := (h + (bh - extra_size.1), w + (bw - extra_size.2))
      Except.ok ((pad_shape.1 / bh, pad_shape.2 / bw), pad_shape,
        fun i j => if i < h ∧ j < w then data i j else none)
    else if edge_method = "crop" then
      let crop_shape : ℕ × ℕ := (nboxes.1 * bh, nboxes.2 * bw)
      Except.ok (nboxes, crop_shape, fun i j => data i j)
    else Except.error BkgError.invalidConfiguration
  else Except.ok (nboxes, (h, w), data)

/-- Embedding of the lazy property `Background2D._box_npixels_threshold`
(background_2d.py:314-328): `threshold = exclude_percentile / 100 * box_npixels`,
and when `exclude_percentile == 100` the code adds one to the threshold. -/
def box_npixels_threshold (exclude_percentile : ℚ) (box_npixels : ℕ) : ℚ :=
  let threshold := exclude_percentile / 100 * (box_npixels : ℚ)
  if exclude_percentile = 100 then threshold + 1 else threshold

/-- The number of NaN (missing) pixels in one box row:
one row of `np.count_nonzero(np.isnan(self._box_data), axis=1)`
(background_2d.py:339). -/
def nmasked (box : List (Option ℚ)) : ℕ :=
  box.countP (fun x => x.isNone)

/-- The valid (non-missing) samples of one box row, in order.  This is the
set of values a NaN-ignoring reduction (`bottleneck.nanmedian`,
`bottleneck.nanstd`) actually consumes. -/
def validSamples (box : List (Option ℚ)) : List ℚ :=
  box.filterMap id

/-- The surviving box indices computed by `_get_box_indices`
(background_2d.py:342): `np.where(nmasked <= self._box_npixels_threshold)[0]`,
i.e. the (ascending) indices of rows whose NaN count is at most the
threshold. -/
def surviving_box_indices (box_data : List (List (Option ℚ)))
    (exclude_percentile : ℚ) (box_npixels : ℕ) : List ℕ :=
  (List.range box_data.length).filter
    (fun k => decide ((nmasked (box_data.getD k []) : ℚ) ≤
      box_npixels_threshold exclude_percentile box_npixels))

/-- Embedding of `Background2D._get_box_indices` (background_2d.py:330-353):
keeps the indices of rows whose NaN count is `<=` the threshold, and raises
a `ValueError` carrying the threshold and the percentage when none
survive. -/
def get_box_indices (box_data : List (List (Option ℚ)))
    (exclude_percentile : ℚ) (box_npixels : ℕ) : Except BkgError (List ℕ) :=
  let box_idx := surviving_box_indices box_data exclude_percentile box_npixels
  if box_idx = [] then
    Except.error (BkgError.allBoxesExcluded
      (box_npixels_threshold exclude_percentile box_npixels) exclude_percentile)
  else Except.ok box_idx

/-- A concrete caller-injectable location estimator (the plain mean of the
valid samples), used to exhibit that `_compute_box_statistics` never calls
the injected estimator. -/
def listMean (l : List ℚ) : ℚ :=
  l.sum / (l.length : ℚ)

/-- The `np.median` convention (also `bottleneck.nanmedian` restricted to the
valid samples): sort, take the middle element for odd length, the average of
the two middle elements for even length. -/
def median (l : List ℚ) : ℚ :=
  let s := l.mergeSort (fun a b => decide (a ≤ b))
  if s.length % 2 = 1 then s.getD (s.length / 2) 0
  else (s.getD (s.length / 2 - 1) 0 + s.getD (s.length / 2) 0) / 2

/-- Row-wise application of the (external, astropy) `SigmaClip` object:
`self._box_data = self.sigma_clip(self._box_data, axis=1, masked=False)`
(background_2d.py:364-366) masks additional samples in each row
independently; `none` disables clipping, as in the source. -/
def apply_sigma_clip (sigma_clip : Option (List (Option ℚ) → List (Option ℚ)))
    (box_data : List (List (Option ℚ))) : List (List (Option ℚ)) :=
  match sigma_clip with
  | some clip => box_data.map clip
  | none => box_data

/-- Embedding of `Background2D._compute_box_statistics`
(background_2d.py:361-380), starting from the initially selected rows
`box_data` and their original linear ids `box_idx`:
* apply sigma clipping (if configured) to each surviving row,
* re-run the exclusion test on the clipped rows only
  (`idx = self._get_box_indices()`), re-indexing `self._box_idx` and
  `self._box_data` through `idx` (dropped boxes are not reconsidered),
* compute `self._bkg1d = bottleneck.nanmedian(...)` and
  `self._bkgrms1d = bottleneck.nanstd(...)`.  The injected
  `bkg_estimator`/`bkgrms_estimator` arguments are NOT used: the calls to
  them are commented out behind a TODO (background_2d.py:378-380).
  `nanstd` (a float sqrt-based reduction) is an external numeric primitive
  passed as a parameter, applied to the valid samples of each row. -/
def compute_box_statistics
    (sigma_clip : Option (List (Option ℚ) → List (Option ℚ)))
    (bkg_estimator bkgrms_estimator : List ℚ → ℚ)
    (nanstd : List ℚ → ℚ)
    (box_idx : List ℕ) (box_data : List (List (Option ℚ)))
    (exclude_percentile : ℚ) (box_npixels : ℕ) :
    Except BkgError (List ℕ × List ℚ × List ℚ) := do
  let clipped := apply_sigma_clip sigma_clip box_data
  let idx ← get_box_indices clipped exclude_percentile box_npixels
  let box_idx2 := idx.map (fun k => box_idx.getD k 0)
  let box_data2 := idx.map (fun k => clipped.getD k [])
  let bkg1d := box_data2.map (fun box => median (validSamples box))
  let bkgrms1d := box_data2.map (fun box => nanstd (validSamples box))
  Except.ok (box_idx2, bkg1d, bkgrms1d)

/-- The composition `_select_initial_boxes` (background_2d.py:355-359)
followed by `_compute_box_statistics`: the first cut keeps the rows listed
by `_get_box_indices` (the code skips the re-index when every row survived,
which produces the same list), then the second stage clips, re-tests, and
computes the per-box statistics. -/
def box_statistics_pipeline
    (box_data : List (List (Option ℚ)))
    (exclude_percentile : ℚ) (box_npixels : ℕ)
    (sigma_clip : Option (List (Option ℚ) → List (Option ℚ)))
    (bkg_estimator bkgrms_estimator : List ℚ → ℚ)
    (nanstd : List ℚ → ℚ) :
    Except BkgError (List ℕ × List ℚ × List ℚ) := do
  let box_idx ← get_box_indices box_data exclude_percentile box_npixels
  let selected := box_idx.map (fun k => box_data.getD k [])
  compute_box_statistics sigma_clip bkg_estimator bkgrms_estimator nanstd
    box_idx selected exclude_percentile box_npixels

/-- Embedding of `Background2D._make_2d_array` (background_2d.py:382-400):
`data2d = np.full(self.nboxes, np.nan); data2d[self._mesh_idx] = data` where
`self._mesh_idx = np.unravel_index(self._box_idx, self.nboxes)`, i.e. linear
id `k` scatters to cell `(k / nx, k % nx)`.  The entries of `box_idx` are
distinct (`np.where` output is strictly increasing), so the vectorized
scatter equals the pointwise lookup below; unassigned cells keep the NaN
sentinel (`none`). -/
def make_2d_array (nboxes : ℕ × ℕ) (box_idx : List ℕ) (data : List ℚ) :
    ℕ → ℕ → Option ℚ :=
  fun r c =>
    ((box_idx.zip data).find?
      (fun kv => kv.1 / nboxes.2 == r && kv.1 % nboxes.2 == c)).map Prod.snd

/-- Embedding of `Background2D._make_meshes` (background_2d.py:451-471): when
`self._bkg1d.size == self.nboxes_tot` (no box was excluded) both meshes are
produced by the direct scatter `_make_2d_array`; otherwise both are produced
by `_interpolate_meshes` (Shepard IDW interpolation over the surviving box
centers), which is an external collaborator modelled as the parameter
`interpolate_meshes`. -/
def make_meshes (nboxes : ℕ × ℕ) (box_idx : List ℕ) (bkg1d bkgrms1d : List ℚ)
    (interpolate_meshes : List ℕ → List ℚ → ℕ → ℕ → Option ℚ) :
    (ℕ → ℕ → Option ℚ) × (ℕ → ℕ → Option ℚ) :=
  if bkg1d.length = nboxes.1 * nboxes.2 then
    (make_2d_array nboxes box_idx bkg1d, make_2d_array nboxes box_idx bkgrms1d)
  else
    (interpolate_meshes box_idx bkg1d, interpolate_meshes box_idx bkgrms1d)

/-- The clipped filter window of `_selective_filter`
(background_2d.py:497-503) read from the (pre-filter) mesh `data` of shape
`ny × nx`, flattened row-major:
`yidx0 = max(i - yfs // 2, 0)`, `yidx1 = min(i - yfs // 2 + yfs, ny)` and
similarly in x.  Natural subtraction `i - fsy / 2` realizes the `max` with 0,
and `i - yfs // 2 + yfs` (computed by Python in ℤ) equals
`i + (fsy - fsy / 2)`, which is the form used here. -/
def filter_window (ny nx fsy fsx : ℕ) (data : ℕ → ℕ → ℚ) (i j : ℕ) : List ℚ :=
  let yidx0 := i - fsy / 2
  let yidx1 := min (i + (fsy - fsy / 2)) ny
  let xidx0 := j - fsx / 2
  let xidx1 := min (j + (fsx - fsx / 2)) nx
  (List.range' yidx0 (yidx1 - yidx0)).flatMap (fun y =>
    (List.range' xidx0 (xidx1 - xidx0)).map (fun x => data y x))

/-- Embedding of `Background2D._selective_filter` (background_2d.py:473-505):
`data_out = np.copy(data)`, then for each selected `(i, j)` the output cell
is overwritten with `np.median` of the clipped window *of the original
`data` snapshot*; all other cells keep their copied values. -/
def selective_filter (ny nx fsy fsx : ℕ) (data : ℕ → ℕ → ℚ)
    (indices : List (ℕ × ℕ)) : ℕ → ℕ → ℚ :=
  indices.foldl
    (fun data_out ij => fun r c =>
      if r = ij.1 ∧ c = ij.2 then median (filter_window ny nx fsy fsx data ij.1 ij.2)
      else data_out r c)
    data

/-- The index list `np.nonzero(self.background_mesh > self.filter_threshold)`
(background_2d.py:530): the row-major list of cells whose background mesh
value strictly exceeds the threshold. -/
def threshold_indices (ny nx : ℕ) (mesh : ℕ → ℕ → ℚ) (t : ℚ) : List (ℕ × ℕ) :=
  ((List.range ny).flatMap (fun i => (List.range nx).map (fun j => (i, j)))).filter
    (fun ij => decide (t < mesh ij.1 ij.2))

/-- Embedding of `Background2D._filter_meshes` (background_2d.py:507-534) on
dense `ny × nx` meshes: a `filter_size` of `(1, 1)` short-circuits;
otherwise with no threshold both meshes are filtered everywhere by
`scipy.ndimage.generic_filter` (external, modelled as the parameter
`generic_filter`), and with a threshold both meshes are selectively filtered
at exactly the cells where the *background* mesh exceeds the threshold. -/
def filter_meshes (ny nx fsy fsx : ℕ)
    (generic_filter : (ℕ → ℕ → ℚ) → ℕ → ℕ → ℚ)
    (filter_threshold : Option ℚ)
    (background_mesh background_rms_mesh : ℕ → ℕ → ℚ) :
    (ℕ → ℕ → ℚ) × (ℕ → ℕ → ℚ) :=
  if fsy = 1 ∧ fsx = 1 then (background_mesh, background_rms_mesh)
  else
    match filter_threshold with
    | none => (generic_filter background_mesh, generic_filter background_rms_mesh)
    | some t =>
        let indices := threshold_indices ny nx background_mesh t
        (selective_filter ny nx fsy fsx background_mesh indices,
         selective_filter ny nx fsy fsx background_rms_mesh indices)

/-- Embedding of the final-map stage shared by the lazy properties
`Background2D.background` (background_2d.py:604-612) and
`Background2D.background_rms` (background_2d.py:614-622): the injectable
interpolator's full-resolution output (`interp_result`), with the
`coverage_mask` positions overwritten by `fill_value` when (and only when) a
coverage mask was supplied.  The source mask does not appear in this stage
at all. -/
def final_map (interp_result : ℕ → ℕ → ℚ)
    (coverage_mask : Option (ℕ → ℕ → Bool)) (fill_value : ℚ) : ℕ → ℕ → ℚ :=
  match coverage_mask with
  | some cm => fun i j => if cm i j then fill_value else interp_result i j
  | none => interp_result

/-- Estimator objects are Python objects identified by reference; the store
maps each reference to the current value of its `sigma_clip` attribute
(modelled as an optional `(sigma, maxiters)` configuration). -/
def EstimatorStore : Type := ℕ → Option (ℚ × ℕ)

/-- Embedding of the attribute writes in `Background2D.__init__`
(background_2d.py:198-199): `bkg_estimator.sigma_clip = None` and
`bkgrms_estimator.sigma_clip = None`, executed on the caller-supplied
objects before `_prepare_data`/`_reshape_data`/... run; no later stage
writes these attributes, so this is also the store after construction. -/
def set_estimator_sigma_clips (store : EstimatorStore)
    (bkg_estimator_ref bkgrms_estimator_ref : ℕ) : EstimatorStore :=
  fun r => if r = bkg_estimator_ref ∨ r = bkgrms_estimator_ref then none else store r

/-- The default `bkg_estimator=SExtractorBackground(sigma_clip=None)` object
(background_2d.py:168): a Python default argument, created once when the
`def __init__` line is evaluated, hence one fixed object shared by every
construction that does not pass `bkg_estimator`. -/
def default_bkg_estimator_ref : ℕ := 0

/-- The default `bkgrms_estimator=StdBackgroundRMS(sigma_clip=None)` object
(background_2d.py:169), likewise created once and shared. -/
def default_bkgrms_estimator_ref : ℕ := 1

/-- A concrete sample image used as a fixture in closed witness theorems. -/
def sampleImage : ℕ → ℕ → Option ℚ :=
  fun i j => some ((i : ℚ) * 10 + (j : ℚ))

/-- A concrete dense mesh fixture for closed witness theorems. -/
def sampleMesh : ℕ → ℕ → ℚ :=
  fun i j => (i : ℚ) * 10 + (j : ℚ)

/-- A concrete coverage-mask fixture (true on the diagonal). -/
def sampleMask : ℕ → ℕ → Bool :=
  fun i j => i == j

/-- A concrete stand-in for the external IDW mesh interpolator, used only to
instantiate the interpolator parameter in closed witness theorems. -/
def sampleInterp : List ℕ → List ℚ → ℕ → ℕ → Option ℚ :=
  fun _ _ _ _ => none

/-- A concrete stand-in for the external `scipy.ndimage.generic_filter`
collaborator, used only to instantiate closed witness theorems. -/
def sampleGenericFilter : (ℕ → ℕ → ℚ) → ℕ → ℕ → ℚ :=
  fun g => g

/-- A concrete stand-in for the external `bottleneck.nanstd` reduction. -/
def zeroStat : List ℚ → ℚ :=
  fun _ => 0

/-- A concrete estimator store fixture: every object starts with a
`sigma_clip` configuration of `(3, 10)`. -/
def sampleStore : EstimatorStore :=
  fun _ => some (3, 10)

theorem median_singleton (x : ℚ) : median [x] = x := by
  simp [median, List.mergeSort_singleton]

theorem selective_filter_eq (ny nx fsy fsx : ℕ) (data : ℕ → ℕ → ℚ)
    (indices : List (ℕ × ℕ)) (r c : ℕ) :
    selective_filter ny nx fsy fsx data indices r c =
      if (r, c) ∈ indices then median (filter_window ny nx fsy fsx data r c)
      else data r c := by
  have key : ∀ (idxs : List (ℕ × ℕ)) (acc : ℕ → ℕ → ℚ),
      idxs.foldl
        (fun data_out ij => fun r2 c2 =>
          if r2 = ij.1 ∧ c2 = ij.2 then
            median (filter_window ny nx fsy fsx data ij.1 ij.2)
          else data_out r2 c2) acc r c =
      if (r, c) ∈ idxs then median (filter_window ny nx fsy fsx data r c)
      else acc r c := by
    intro idxs
    induction idxs with
    | nil => intro acc; simp
    | cons a l ih =>
        intro acc
        obtain ⟨a1, a2⟩ := a
        rw [List.foldl_cons, ih]
        by_cases hmem : (r, c) ∈ l
        · simp [hmem, List.mem_cons]
        · by_cases hac : r = a1 ∧ c = a2
          · obtain ⟨h1, h2⟩ := hac
            subst h1
            subst h2
            simp [hmem, List.mem_cons]
          · have hpair : (r, c) ≠ (a1, a2) := by
              simp only [ne_eq, Prod.mk.injEq]
              exact fun hh => hac hh
            simp [List.mem_cons, hmem, hac, hpair]
  exact key indices data

theorem mem_threshold_indices (ny nx : ℕ) (mesh : ℕ → ℕ → ℚ) (t : ℚ) (i j : ℕ) :
    (i, j) ∈ threshold_indices ny nx mesh t ↔ i < ny ∧ j < nx ∧ t < mesh i j := by
  simp only [threshold_indices, List.mem_filter, List.mem_flatMap, List.mem_map,
    List.mem_range, decide_eq_true_eq, Prod.mk.injEq]
  constructor
  · rintro ⟨⟨a, ha, b, hb, hab1, hab2⟩, hlt⟩
    subst hab1; subst hab2
    exact ⟨ha, hb, hlt⟩
  · rintro ⟨hi, hj, hlt⟩
    exact ⟨⟨i, hi, j, hj, rfl, rfl⟩, hlt⟩

theorem filter_window_one (ny nx : ℕ) (data : ℕ → ℕ → ℚ) (i j : ℕ)
    (hi : i < ny) (hj : j < nx) : filter_window ny nx 1 1 data i j = [data i j] := by
  have h1 : min (i + (1 - 1 / 2)) ny = i + 1 := Nat.min_eq_left hi
  have h2 : min (j + (1 - 1 / 2)) nx = j + 1 := Nat.min_eq_left hj
  simp [filter_window, h1, h2, List.range'_one]

theorem find_zip_range (nx r c : ℕ) (hc : c < nx) :
    ∀ (vals : List ℚ) (s : ℕ), s ≤ r * nx + c → r * nx + c < s + vals.length →
      ((List.range' s vals.length).zip vals).find?
          (fun kv => kv.1 / nx == r && kv.1 % nx == c) =
        some (r * nx + c, vals.getD (r * nx + c - s) 0) := by
  have hnx : 0 < nx := Nat.lt_of_le_of_lt (Nat.zero_le c) hc
  intro vals
  induction vals with
  | nil =>
      intro s h1 h2
      simp only [List.length_nil, Nat.add_zero] at h2
      omega
  | cons v vs ih =>
      intro s h1 h2
      simp only [List.length_cons] at h2
      rw [List.length_cons, List.range'_succ, List.zip_cons_cons, List.find?_cons]
      by_cases hs : s = r * nx + c
      · subst hs
        have hdiv : (r * nx + c) / nx = r := by
          rw [Nat.add_comm, Nat.add_mul_div_right _ _ hnx, Nat.div_eq_of_lt hc,
            Nat.zero_add]
        have hmod : (r * nx + c) % nx = c := by
          rw [Nat.add_comm, Nat.add_mul_mod_self_right]
          exact Nat.mod_eq_of_lt hc
        simp [hdiv, hmod]
      · have hlt : s < r * nx + c := Nat.lt_of_le_of_ne h1 hs
        have hpred : ((s / nx == r && s % nx == c) = false) := by
          by_contra hb
          have hb2 : s / nx = r ∧ s % nx = c := by
            have := eq_true_of_ne_false hb
            simpa using this
          have he := Nat.div_add_mod s nx
          rw [hb2.1, hb2.2] at he
          have hcomm : nx * r = r * nx := Nat.mul_comm nx r
          omega
        rw [hpred]
        have hrec := ih (s + 1) (by omega) (by omega)
        rw [hrec]
        have hidx : r * nx + c - s = (r * nx + c - (s + 1)) + 1 := by omega
        rw [hidx, List.getD_cons_succ]

/-- Claim C1: the spec says a box whose pixels are all missing is excluded
from the surviving `BoxIndex` set even at `ExcludePercentile = 100`, the
threshold being "incremented by one unit so that a fully-missing box is
still excluded".  The code does increment the threshold
(`threshold += 1`, background_2d.py:326-327), but incrementing *raises* the
inclusion cutoff `nmasked <= threshold`: at `exclude_percentile = 100` with
4-pixel boxes the threshold becomes `5`, so a fully masked box
(`nmasked = 4`) *survives* — contradicting the code's own docstring
("completely masked boxes are always excluded", background_2d.py:88-89) and
the comment right above the increment.  This theorem evaluates the embedded
code at that failing input: box 0 is fully masked yet is returned in the
surviving index set. -/
theorem c1_fully_masked_box_survives_at_100 :
    nmasked [none, none, none, none] = 4 ∧
    box_npixels_threshold 100 4 = 5 ∧
    get_box_indices [[none, none, none, none],
      [some 1, some 1, some 1, some 1]] 100 4 = Except.ok [0, 1] := by
  refine ⟨rfl, ?_, ?_⟩
  · norm_num [box_npixels_threshold]
  · norm_num [get_box_indices, surviving_box_indices, box_npixels_threshold,
      nmasked, List.range_succ]
    exact fun hh => absurd hh (by simp)

/-- Claim C2: the spec says each surviving box's background value equals the
injected location estimator applied to the box's valid samples (and the RMS
the injected scale estimator).  The code instead hardcodes
`bottleneck.nanmedian` / `bottleneck.nanstd` and leaves the estimator calls
commented out behind a TODO (background_2d.py:375-380), contradicting its
own docstring for `bkg_estimator` ("used to estimate the background in each
of the boxes").  Failing input evaluated here: one box `[0, 0, 3]` with
injected location estimator `listMean`; the pipeline returns background `0`
(the nanmedian), while the injected estimator yields `1`. -/
theorem c2_injected_estimators_ignored :
    box_statistics_pipeline [[some 0, some 0, some 3]] 10 3 none
      listMean listMean zeroStat = Except.ok ([0], [0], [0]) ∧
    listMean [0, 0, 3] = 1 := by
  constructor
  · norm_num [box_statistics_pipeline, compute_box_statistics, get_box_indices,
      surviving_box_indices, apply_sigma_clip, box_npixels_threshold, nmasked,
      validSamples, zeroStat, List.range_succ, Bind.bind, Except.bind]
    norm_num [median, List.mergeSort, List.filterMap_cons, List.filterMap_nil, id_eq]
  · norm_num [listMean]

/-- Claim C3: the spec says a `box_size`/`filter_size` input with neither 1
nor 2 elements fails with an `InvalidConfiguration` error.  In the code the
`len(array) != 2` check is nested inside the `len(array) == 1` branch after
`np.repeat(array, 2)` (background_2d.py:217-221), so it can never fire: a
3-element input is returned unchanged, no error is raised, and the
"must have only 1 or 2 elements" message is dead code.  This theorem
evaluates the embedded code at the failing input `(1, 2, 3)`. -/
theorem c3_three_element_size_not_rejected :
    process_size_input [1, 2, 3] = Except.ok [1, 2, 3] ∧
    process_size_input [5] = Except.ok [5, 5] := by
  exact ⟨rfl, rfl⟩

/-- Claim C4 counterexample: the claim says that for *every* input image and
box size, an `edge_method` other than `"pad"`/`"crop"` makes the pipeline
fail eagerly with an `InvalidConfiguration` error.  But `_reshape_data` only
examines `edge_method` inside the `np.sum(extra_size) != 0` branch
(background_2d.py:288-301): on a 2×2 image with box size 1×1 the shape is an
exact multiple, so the unrecognized value `"reflect"` is silently accepted
and the image is used as-is. -/
theorem c4_counterexample :
    reshape_data 2 2 1 1 sampleImage "reflect" =
      Except.ok ((2, 2), (2, 2), sampleImage) ∧
    reshape_data 2 2 1 1 sampleImage "reflect" ≠
      Except.error BkgError.invalidConfiguration := by
  have hok : reshape_data 2 2 1 1 sampleImage "reflect" =
      Except.ok ((2, 2), (2, 2), sampleImage) := rfl
  refine ⟨hok, ?_⟩
  rw [hok]
  exact fun hcontra => Except.noConfusion hcontra

/-- Claim C4 as amended: with an `edge_method` that is neither `"pad"` nor
`"crop"`, the partitioning stage raises `InvalidConfiguration` exactly when
the image shape is not an exact multiple of the box size in some dimension;
when the shape is an exact multiple, `edge_method` is not validated at all
and the image is passed through unchanged. -/
theorem c4_amended (h w bh bw : ℕ) (data : ℕ → ℕ → Option ℚ) (m : String)
    (hm1 : m ≠ "pad") (hm2 : m ≠ "crop") :
    (h % bh + w % bw ≠ 0 →
      reshape_data h w bh bw data m = Except.error BkgError.invalidConfiguration) ∧
    (h % bh + w % bw = 0 →
      reshape_data h w bh bw data m = Except.ok ((h / bh, w / bw), (h, w), data)) := by
  constructor <;> intro hrem <;> simp [reshape_data, hrem, hm1, hm2]

/-- Closed witness for `c4_amended` at the concrete input
`h = 3, w = 3, box = 2 × 2, edge_method = "reflect"`. -/
theorem c4_amended_witness :
    (3 % 2 + 3 % 2 ≠ 0 →
      reshape_data 3 3 2 2 sampleImage "reflect" =
        Except.error BkgError.invalidConfiguration) ∧
    (3 % 2 + 3 % 2 = 0 →
      reshape_data 3 3 2 2 sampleImage "reflect" =
        Except.ok ((3 / 2, 3 / 2), (3, 3), sampleImage)) :=
  c4_amended 3 3 2 2 sampleImage "reflect" (by decide) (by decide)

/-- Claim C5: if zero boxes survive the initial exclusion test, or zero boxes
survive the re-applied exclusion test after sigma clipping (which examines
only the still-surviving rows), the box-statistics stage fails with the
`ValueError` whose message carries the effective pixel-count threshold and
the configured percentage; if at least one box survives each test, no such
error is raised. -/
theorem c5_insufficient_data
    (bd : List (List (Option ℚ))) (ep : ℚ) (npix : ℕ)
    (sc : Option (List (Option ℚ) → List (Option ℚ)))
    (be bre nstd : List ℚ → ℚ) :
    (surviving_box_indices bd ep npix = [] →
      box_statistics_pipeline bd ep npix sc be bre nstd =
        Except.error (BkgError.allBoxesExcluded (box_npixels_threshold ep npix) ep)) ∧
    (surviving_box_indices bd ep npix ≠ [] →
      surviving_box_indices
          (apply_sigma_clip sc
            ((surviving_box_indices bd ep npix).map (fun k => bd.getD k [])))
          ep npix = [] →
      box_statistics_pipeline bd ep npix sc be bre nstd =
        Except.error (BkgError.allBoxesExcluded (box_npixels_threshold ep npix) ep)) ∧
    (surviving_box_indices bd ep npix ≠ [] →
      surviving_box_indices
          (apply_sigma_clip sc
            ((surviving_box_indices bd ep npix).map (fun k => bd.getD k [])))
          ep npix ≠ [] →
      (box_statistics_pipeline bd ep npix sc be bre nstd).isOk = true) := by
  refine ⟨?_, ?_, ?_⟩
  · intro h1
    simp [box_statistics_pipeline, get_box_indices, h1, Bind.bind, Except.bind]
  · intro h1 h2
    simp only [List.getD_eq_getElem?_getD] at h2
    simp [box_statistics_pipeline, get_box_indices, compute_box_statistics,
      h1, h2, Bind.bind, Except.bind]
  · intro h1 h2
    simp only [List.getD_eq_getElem?_getD] at h2
    simp [box_statistics_pipeline, get_box_indices, compute_box_statistics,
      h1, h2, Bind.bind, Except.bind, Except.isOk, Except.toBool]

/-- Closed witness for `c5_insufficient_data`: a single fully-masked box at
`exclude_percentile = 0` survives neither test, and the pipeline returns the
error carrying the threshold and the percentage. -/
theorem c5_insufficient_data_witness :
    box_statistics_pipeline [[none]] 0 1 none listMean listMean zeroStat =
      Except.error (BkgError.allBoxesExcluded (box_npixels_threshold 0 1) 0) :=
  (c5_insufficient_data [[none]] 0 1 none listMean listMean zeroStat).1 (by
    norm_num [surviving_box_indices, nmasked, box_npixels_threshold,
      List.range_succ])

/-- Claim C6: for a valid box size and `edge_method ∈ {"pad", "crop"}`, when
the image shape is not an exact multiple of the box size, `"pad"` extends the
image on the high-index edges by `box_size - remainder` with the missing
sentinel written outside the original extent, and `"crop"` truncates the
high-index edges to the largest exact multiple; in every case the resulting
grid shape times the box size equals the working image shape exactly. -/
theorem c6_grid_geometry (h w bh bw : ℕ) (data : ℕ → ℕ → Option ℚ) (m : String)
    (hbh : 0 < bh) (hbw : 0 < bw) (hm : m = "pad" ∨ m = "crop") :
    (h % bh + w % bw = 0 →
      reshape_data h w bh bw data m = Except.ok ((h / bh, w / bw), (h, w), data) ∧
      (h / bh) * bh = h ∧ (w / bw) * bw = w) ∧
    (h % bh + w % bw ≠ 0 → m = "pad" →
      reshape_data h w bh bw data m =
        Except.ok (((h + (bh - h % bh)) / bh, (w + (bw - w % bw)) / bw),
          (h + (bh - h % bh), w + (bw - w % bw)),
          fun i j => if i < h ∧ j < w then data i j else none) ∧
      ((h + (bh - h % bh)) / bh) * bh = h + (bh - h % bh) ∧
      ((w + (bw - w % bw)) / bw) * bw = w + (bw - w % bw)) ∧
    (h % bh + w % bw ≠ 0 → m = "crop" →
      reshape_data h w bh bw data m =
        Except.ok ((h / bh, w / bw), ((h / bh) * bh, (w / bw) * bw),
          fun i j => data i j) ∧
      (h / bh) * bh ≤ h ∧ h < (h / bh) * bh + bh ∧
      (w / bw) * bw ≤ w ∧ w < (w / bw) * bw + bw) := by
  refine ⟨?_, ?_, ?_⟩
  · intro hrem
    have hh : h % bh = 0 := by omega
    have hw : w % bw = 0 := by omega
    exact ⟨by simp [reshape_data, hrem],
      Nat.div_mul_cancel (Nat.dvd_of_mod_eq_zero hh),
      Nat.div_mul_cancel (Nat.dvd_of_mod_eq_zero hw)⟩
  · intro hrem hpad
    subst hpad
    have keyh : h + (bh - h % bh) = bh * (h / bh + 1) := by
      have e := Nat.div_add_mod h bh
      have l := Nat.mod_lt h hbh
      have expand : bh * (h / bh + 1) = bh * (h / bh) + bh := by ring
      omega
    have keyw : w + (bw - w % bw) = bw * (w / bw + 1) := by
      have e := Nat.div_add_mod w bw
      have l := Nat.mod_lt w hbw
      have expand : bw * (w / bw + 1) = bw * (w / bw) + bw := by ring
      omega
    refine ⟨by simp [reshape_data, hrem], ?_, ?_⟩
    · rw [keyh, Nat.mul_div_cancel_left _ hbh, Nat.mul_comm]
    · rw [keyw, Nat.mul_div_cancel_left _ hbw, Nat.mul_comm]
  · intro hrem hcrop
    subst hcrop
    refine ⟨by simp [reshape_data, hrem], Nat.div_mul_le_self h bh, ?_,
      Nat.div_mul_le_self w bw, ?_⟩
    · have e := Nat.div_add_mod h bh
      have l := Nat.mod_lt h hbh
      have hcomm : bh * (h / bh) = (h / bh) * bh := Nat.mul_comm _ _
      omega
    · have e := Nat.div_add_mod w bw
      have l := Nat.mod_lt w hbw
      have hcomm : bw * (w / bw) = (w / bw) * bw := Nat.mul_comm _ _
      omega

/-- Closed witness for `c6_grid_geometry` at `h = 5, w = 4, box = 2 × 2,
edge_method = "pad"`. -/
theorem c6_grid_geometry_witness :
    (5 % 2 + 4 % 2 = 0 →
      reshape_data 5 4 2 2 sampleImage "pad" =
        Except.ok ((5 / 2, 4 / 2), (5, 4), sampleImage) ∧
      (5 / 2) * 2 = 5 ∧ (4 / 2) * 2 = 4) ∧
    (5 % 2 + 4 % 2 ≠ 0 → "pad" = "pad" →
      reshape_data 5 4 2 2 sampleImage "pad" =
        Except.ok (((5 + (2 - 5 % 2)) / 2, (4 + (2 - 4 % 2)) / 2),
          (5 + (2 - 5 % 2), 4 + (2 - 4 % 2)),
          fun i j => if i < 5 ∧ j < 4 then sampleImage i j else none) ∧
      ((5 + (2 - 5 % 2)) / 2) * 2 = 5 + (2 - 5 % 2) ∧
      ((4 + (2 - 4 % 2)) / 2) * 2 = 4 + (2 - 4 % 2)) ∧
    (5 % 2 + 4 % 2 ≠ 0 → "pad" = "crop" →
      reshape_data 5 4 2 2 sampleImage "pad" =
        Except.ok ((5 / 2, 4 / 2), ((5 / 2) * 2, (4 / 2) * 2),
          fun i j => sampleImage i j) ∧
      (5 / 2) * 2 ≤ 5 ∧ 5 < (5 / 2) * 2 + 2 ∧
      (4 / 2) * 2 ≤ 4 ∧ 4 < (4 / 2) * 2 + 2) :=
  c6_grid_geometry 5 4 2 2 sampleImage "pad" (by decide) (by decide) (Or.inl rfl)

theorem make_2d_array_range (ny nx : ℕ) (vals : List ℚ) (r c : ℕ)
    (hlen : vals.length = ny * nx) (hr : r < ny) (hc : c < nx) :
    make_2d_array (ny, nx) (List.range (ny * nx)) vals r c =
      some (vals.getD (r * nx + c) 0) := by
  have hk : r * nx + c < ny * nx := by
    have h1 : r * nx + c < (r + 1) * nx := by
      rw [Nat.succ_mul]
      omega
    have h2 : (r + 1) * nx ≤ ny * nx := Nat.mul_le_mul_right nx hr
    omega
  unfold make_2d_array
  rw [← hlen, List.range_eq_range',
    find_zip_range nx r c hc vals 0 (Nat.zero_le _) (by omega)]
  simp

/-- Claim C7: when every box survives exclusion (the surviving index list is
all of `0, ..., ny·nx - 1`), the assembled mesh value at grid cell `(r, c)`
equals the box-statistics output at linear index `r·nx + c`, for both the
background and the RMS meshes, with no interpolation applied (the statement
holds for an arbitrary interpolator parameter, which is therefore never
consulted). -/
theorem c7_dense_mesh (ny nx : ℕ) (bkg1d bkgrms1d : List ℚ)
    (interp : List ℕ → List ℚ → ℕ → ℕ → Option ℚ) (r c : ℕ)
    (hb : bkg1d.length = ny * nx) (hrb : bkgrms1d.length = ny * nx)
    (hr : r < ny) (hc : c < nx) :
    (make_meshes (ny, nx) (List.range (ny * nx)) bkg1d bkgrms1d interp).1 r c =
      some (bkg1d.getD (r * nx + c) 0) ∧
    (make_meshes (ny, nx) (List.range (ny * nx)) bkg1d bkgrms1d interp).2 r c =
      some (bkgrms1d.getD (r * nx + c) 0) := by
  have hcond : bkg1d.length = (ny, nx).1 * (ny, nx).2 := hb
  rw [make_meshes, if_pos hcond]
  exact ⟨make_2d_array_range ny nx bkg1d r c hb hr hc,
    make_2d_array_range ny nx bkgrms1d r c hrb hr hc⟩

/-- Closed witness for `c7_dense_mesh` on a 2×2 grid with meshes
`[1, 2, 3, 4]` and `[5, 6, 7, 8]` at cell `(1, 0)`. -/
theorem c7_dense_mesh_witness :
    (make_meshes (2, 2) (List.range (2 * 2)) [1, 2, 3, 4] [5, 6, 7, 8]
        sampleInterp).1 1 0 = some (List.getD [1, 2, 3, 4] (1 * 2 + 0) 0) ∧
    (make_meshes (2, 2) (List.range (2 * 2)) [1, 2, 3, 4] [5, 6, 7, 8]
        sampleInterp).2 1 0 = some (List.getD [5, 6, 7, 8] (1 * 2 + 0) 0) :=
  c7_dense_mesh 2 2 [1, 2, 3, 4] [5, 6, 7, 8] sampleInterp 1 0
    rfl rfl (by decide) (by decide)

/-- Claim C8: with a filter threshold present, exactly the mesh cells whose
*background* value strictly exceeds the threshold are replaced — in both the
background and RMS meshes — by the unweighted median of the cell's
bounds-clipped `filter_size` window read from the pre-filter mesh snapshot;
every other cell keeps its prior value in both meshes.  (With
`filter_size = (1, 1)` the stage short-circuits, and the median of the
one-cell window is the cell itself, so the statement holds for every
positive filter size.) -/
theorem c8_selective_filter (ny nx fsy fsx : ℕ)
    (gf : (ℕ → ℕ → ℚ) → ℕ → ℕ → ℚ) (t : ℚ) (bkg rms : ℕ → ℕ → ℚ) (i j : ℕ)
    (hi : i < ny) (hj : j < nx) :
    (t < bkg i j →
      (filter_meshes ny nx fsy fsx gf (some t) bkg rms).1 i j =
        median (filter_window ny nx fsy fsx bkg i j) ∧
      (filter_meshes ny nx fsy fsx gf (some t) bkg rms).2 i j =
        median (filter_window ny nx fsy fsx rms i j)) ∧
    (¬ t < bkg i j →
      (filter_meshes ny nx fsy fsx gf (some t) bkg rms).1 i j = bkg i j ∧
      (filter_meshes ny nx fsy fsx gf (some t) bkg rms).2 i j = rms i j) := by
  by_cases h11 : fsy = 1 ∧ fsx = 1
  · obtain ⟨hf1, hf2⟩ := h11
    subst hf1
    subst hf2
    constructor
    · intro ht
      simp only [filter_meshes, if_pos (And.intro rfl rfl)]
      rw [filter_window_one ny nx bkg i j hi hj,
        filter_window_one ny nx rms i j hi hj, median_singleton, median_singleton]
      exact ⟨rfl, rfl⟩
    · intro ht
      simp only [filter_meshes, if_pos (And.intro rfl rfl)]
      exact ⟨rfl, rfl⟩
  · constructor
    · intro ht
      have hmem : (i, j) ∈ threshold_indices ny nx bkg t :=
        (mem_threshold_indices ny nx bkg t i j).2 ⟨hi, hj, ht⟩
      simp only [filter_meshes, if_neg h11]
      constructor
      · rw [selective_filter_eq, if_pos hmem]
      · rw [selective_filter_eq, if_pos hmem]
    · intro ht
      have hmem : (i, j) ∉ threshold_indices ny nx bkg t := fun hmm =>
        ht ((mem_threshold_indices ny nx bkg t i j).1 hmm).2.2
      simp only [filter_meshes, if_neg h11]
      constructor
      · rw [selective_filter_eq, if_neg hmem]
      · rw [selective_filter_eq, if_neg hmem]

/-- Closed witness for `c8_selective_filter` on a 2×1 mesh with a 3×3 filter
window, threshold 5, at cell `(1, 0)`. -/
theorem c8_selective_filter_witness :
    ((5 : ℚ) < sampleMesh 1 0 →
      (filter_meshes 2 1 3 3 sampleGenericFilter (some 5) sampleMesh sampleMesh).1 1 0 =
        median (filter_window 2 1 3 3 sampleMesh 1 0) ∧
      (filter_meshes 2 1 3 3 sampleGenericFilter (some 5) sampleMesh sampleMesh).2 1 0 =
        median (filter_window 2 1 3 3 sampleMesh 1 0)) ∧
    (¬ (5 : ℚ) < sampleMesh 1 0 →
      (filter_meshes 2 1 3 3 sampleGenericFilter (some 5) sampleMesh sampleMesh).1 1 0 =
        sampleMesh 1 0 ∧
      (filter_meshes 2 1 3 3 sampleGenericFilter (some 5) sampleMesh sampleMesh).2 1 0 =
        sampleMesh 1 0) :=
  c8_selective_filter 2 1 3 3 sampleGenericFilter 5 sampleMesh sampleMesh 1 0
    (by decide) (by decide)

/-- Claim C9: where a supplied coverage mask is true, the final background and
background-RMS maps hold exactly the fill value; and when no coverage mask is
supplied — whatever the upstream pipeline (including any source mask) fed the
interpolator — the final map equals the interpolator output pointwise, so the
fill value is never written.  The statement quantifies over the interpolator
output, and the same `final_map` stage produces both final maps. -/
theorem c9_coverage_fill (interp_result : ℕ → ℕ → ℚ) (m : ℕ → ℕ → Bool)
    (fill_value : ℚ) (i j : ℕ) :
    (m i j = true →
      final_map interp_result (some m) fill_value i j = fill_value) ∧
    final_map interp_result none fill_value i j = interp_result i j := by
  constructor
  · intro hm
    simp [final_map, hm]
  · rfl

/-- Closed witness for `c9_coverage_fill` with the diagonal coverage mask at
pixel `(0, 0)` and fill value 7. -/
theorem c9_coverage_fill_witness :
    (sampleMask 0 0 = true →
      final_map sampleMesh (some sampleMask) 7 0 0 = 7) ∧
    final_map sampleMesh none 7 0 0 = sampleMesh 0 0 :=
  c9_coverage_fill sampleMesh sampleMask 7 0 0

/-- Claim C10: the constructor mutates the caller-supplied estimator
objects — after construction, the `sigma_clip` attribute of both the
`bkg_estimator` and the `bkgrms_estimator` object is `None`, whatever it was
before; any other object is untouched.  Since the default estimator
arguments are fixed objects created once at function-definition time
(`default_bkg_estimator_ref`/`default_bkgrms_estimator_ref`), the same
mutation applies to the shared defaults for every construction that relies
on them. -/
theorem c10_estimator_mutation (store : EstimatorStore) (b r x : ℕ) :
    set_estimator_sigma_clips store b r b = none ∧
    set_estimator_sigma_clips store b r r = none ∧
    (x ≠ b → x ≠ r → set_estimator_sigma_clips store b r x = store x) ∧
    set_estimator_sigma_clips store default_bkg_estimator_ref
      default_bkgrms_estimator_ref default_bkg_estimator_ref = none ∧
    set_estimator_sigma_clips store default_bkg_estimator_ref
      default_bkgrms_estimator_ref default_bkgrms_estimator_ref = none := by
  refine ⟨?_, ?_, ?_, ?_, ?_⟩ <;>
    simp [set_estimator_sigma_clips, default_bkg_estimator_ref,
      default_bkgrms_estimator_ref]
  intro h1 h2
  simp [h1, h2]

/-- Closed witness for `c10_estimator_mutation` on the sample store with
estimator objects 5 and 9 and bystander object 3. -/
theorem c10_estimator_mutation_witness :
    set_estimator_sigma_clips sampleStore 5 9 5 = none ∧
    set_estimator_sigma_clips sampleStore 5 9 9 = none ∧
    (3 ≠ 5 → 3 ≠ 9 → set_estimator_sigma_clips sampleStore 5 9 3 = sampleStore 3) ∧
    set_estimator_sigma_clips sampleStore default_bkg_estimator_ref
      default_bkgrms_estimator_ref default_bkg_estimator_ref = none ∧
    set_estimator_sigma_clips sampleStore default_bkg_estimator_ref
      default_bkgrms_estimator_ref default_bkgrms_estimator_ref = none :=
  c10_estimator_mutation sampleStore 5 9 3
